import Mathlib

/-!
Shallow embedding of the DataBrew coffee-shop dashboard frontend
(React/TypeScript) and of the spec-described backend adapter behavior,
with theorems settling the specification claims.

Client storage (`localStorage`) is modelled as an association list of
string keys to string values; JS numbers are modelled as rationals;
fallible async calls are modelled by explicit outcome data passed to the
handler.
-/

/-- Client storage (localStorage): an association list of key/value pairs. -/
def Storage : Type := List (String × String)

/-- From `localStorage.getItem(key)`: the first stored value for `key`, if any. -/
def Storage.getItem (s : Storage) (key : String) : Option String :=
  match s with
  | [] => none
  | (k, v) :: rest => if k = key then some v else Storage.getItem rest key

/-- From `localStorage.removeItem(key)`: drop every binding of `key`. -/
def Storage.removeItem (s : Storage) (key : String) : Storage :=
  match s with
  | [] => []
  | (k, v) :: rest =>
      if k = key then Storage.removeItem rest key
      else (k, v) :: Storage.removeItem rest key

/- ### App.tsx / part_001: authentication state initializer -/

/-- From `src/frontend/src/App.tsx` lines 16-20: the `isAuthenticated` initial
state is `localStorage.getItem("isAuthenticated") === "true"`. -/
def isAuthenticatedInitApp (store : Storage) : Bool :=
  match store.getItem "isAuthenticated" with
  | some saved => saved = "true"
  | none => false

/-- From `src/unnamed/part_001` lines 16-20 (token variant of `App`): the
`isAuthenticated` initial state is `!!localStorage.getItem("authToken")` —
JavaScript truthiness of the stored string, so a missing key and an
empty-string token are both falsy. -/
def isAuthenticatedInitToken (store : Storage) : Bool :=
  match store.getItem "authToken" with
  | some token => token ≠ ""
  | none => false

/- ### App.tsx: page router -/

/-- The view ultimately rendered by `App`: one of the seven dashboard page
components, or the login / signup page. -/
inductive PageView where
  | dashboard
  | sales
  | inventory
  | ingredients
  | staff
  | aiInsights
  | settings
  | login
  | signup
deriving DecidableEq, Repr

/-- The `authView` state of `App`: `"login" | "signup"`. -/
inductive AuthView where
  | login
  | signup
deriving DecidableEq, Repr

/-- From `src/frontend/src/App.tsx` lines 61-80: `renderPage` switches on the
`activePage` string; any unlisted value falls through to the dashboard. -/
def renderPage (activePage : String) : PageView :=
  if activePage = "dashboard" then .dashboard
  else if activePage = "sales" then .sales
  else if activePage = "inventory" then .inventory
  else if activePage = "ingredients" then .ingredients
  else if activePage = "staff" then .staff
  else if activePage = "ai-insights" then .aiInsights
  else if activePage = "settings" then .settings
  else .dashboard

/-- From `src/frontend/src/App.tsx` lines 43-59 and 82-96: an unauthenticated
user sees the login or signup page according to `authView`; an
authenticated user sees `renderPage activePage`. -/
def appRender (isAuthenticated : Bool) (authView : AuthView)
    (activePage : String) : PageView :=
  if !isAuthenticated then
    match authView with
    | .login => .login
    | .signup => .signup
  else renderPage activePage

/- ### part_001: handleLogout -/

/-- Observable side effects of a frontend handler, in order of occurrence. -/
inductive Effect where
  | alert (msg : String)
  | httpRequest (descr : String)
  | logError (msg : String)
deriving DecidableEq, Repr

/-- Outcome of an awaited `fetch`-based call, as seen by a handler:
either the promise rejected (network error), or a response arrived. -/
inductive CallOutcome where
  | throws (msg : String)
  | returns (ok : Bool) (status : Nat) (bodyText : String)
deriving DecidableEq, Repr

/-- The non-storage `App` state touched by `handleLogout`. -/
structure AppAuthState where
  isAuthenticated : Bool
  authView : AuthView
deriving DecidableEq, Repr

/-- From `src/unnamed/part_001` lines 38-61: `handleLogout` reads the token, and
when one is present issues the backend `/logout` request, swallowing any
error (the catch only logs); it then unconditionally removes `authToken`
and `user` from storage, clears `isAuthenticated` and resets `authView`. -/
def handleLogout (store : Storage) (_st : AppAuthState)
    (logoutCall : CallOutcome) : Storage × AppAuthState × List Effect :=
  let token := store.getItem "authToken"
  let effects :=
    match token with
    | some _ =>
        match logoutCall with
        | .throws msg => [Effect.httpRequest "POST /logout",
                          Effect.logError ("Logout error: " ++ msg)]
        | .returns _ _ _ => [Effect.httpRequest "POST /logout"]
    | none => []
  let store1 := (store.removeItem "authToken").removeItem "user"
  (store1, { isAuthenticated := false, authView := .login }, effects)

/- ### api.ts: apiRequest -/

/-- Outcome of the one `fetch` issued by `apiRequest`, as seen at the await
points: a rejected promise, or a response with its `ok` flag, status,
status text and the result of `response.json()` (`none` when the body is
not valid JSON, in which case `await response.json()` rejects). -/
inductive FetchOutcome (α : Type) where
  | netError (msg : String)
  | response (ok : Bool) (status : Nat) (statusText : String)
      (body : Option α)
deriving DecidableEq, Repr

/-- From `src/frontend/src/services/api.ts` lines 5-16: the settlement of one
`apiRequest` invocation given the outcome of its fetch. A rejected fetch
propagates its error; a non-`ok` response raises
`API Error: status statusText`; an `ok` response returns the result of
`await response.json()` (which rejects when the body is not JSON). The
`catch` block logs and rethrows the same error, so failures propagate
unchanged. -/
def apiRequestResult (α : Type) (o : FetchOutcome α) : Except String α :=
  match o with
  | .netError msg => .error msg
  | .response ok status statusText body =>
      if ok then
        match body with
        | some parsed => .ok parsed
        | none => .error "SyntaxError: unexpected token in JSON"
      else
        .error ("API Error: " ++ toString status ++ " " ++ statusText)

/-- Queue semantics of `apiRequest`: run against a queue of pending fetch outcomes: it consumes
exactly the head (its one `fetch`) and never recurses into the rest. -/
def apiRequest (α : Type) :
    List (FetchOutcome α) → Option (Except String α × List (FetchOutcome α))
  | [] => none
  | o :: rest => some (apiRequestResult α o, rest)

/-- Whether an `apiRequest` invocation rejected. -/
def isErrorResult (α : Type) : Except String α → Bool
  | .error _ => true
  | .ok _ => false

/-- The rejection condition as the amended claim states it: the fetch
promise rejected, or the response status was non-success, or a
success-status body failed to parse as JSON. -/
def amendedRejectCondition (α : Type) : FetchOutcome α → Bool
  | .netError _ => true
  | .response ok _ _ body => !ok || body.isNone

/- ### DashboardPage.tsx (IngredientsPage): data model and handlers -/

/-- From `DashboardPage.tsx` lines 145-155: the `Ingredient` record rendered by
the ingredients table, `is_low_stock` included as delivered by the
backend. -/
structure Ingredient where
  id : Nat
  name : String
  unit : String
  stock_quantity : ℚ
  reorder_level : ℚ
  unit_cost : ℚ
  supplier : String
  notes : String
  is_low_stock : Bool
deriving DecidableEq, Repr

/-- From `DashboardPage.tsx` lines 165-174: a `ProductIngredient` (recipe row)
as rendered in the per-product recipe view. -/
structure ProductIngredient where
  id : Nat
  ingredient_id : Nat
  ingredient_name : String
  quantity_needed : ℚ
  unit : String
  stock_quantity : ℚ
  units_available : ℚ
  notes : String
deriving DecidableEq, Repr

/-- From `DashboardPage.tsx` lines 613-621: the ingredients-table Status cell
shows the destructive `Low Stock` badge exactly when
`ingredient.is_low_stock` is set. -/
def ingredientsTableLowStockBadge (ingredient : Ingredient) : Bool :=
  ingredient.is_low_stock

/-- From `DashboardPage.tsx` line 1058: the recipe view shows its `Low Stock`
badge when `ing.stock_quantity < ing.quantity_needed * 10`. -/
def recipeLowStockBadge (ing : ProductIngredient) : Bool :=
  ing.stock_quantity < ing.quantity_needed * 10

/-- Modelled from the spec: the FastAPI handler that derives
`is_low_stock` for `/ingredients` responses is not under `src/` (only the
SQL schema and the frontend are). Spec: "low stock" is a derived boolean
(stock below reorder threshold); "Reorder level: the stock threshold below
which an ingredient is flagged low-stock". -/
def backendIsLowStock (stock_quantity reorder_level : ℚ) : Bool :=
  stock_quantity < reorder_level

/-- From `DashboardPage.tsx` lines 193-201: the add-ingredient form state. -/
structure IngredientForm where
  name : String
  unit : String
  stock_quantity : ℚ
  reorder_level : ℚ
  unit_cost : ℚ
  supplier : String
  notes : String
deriving DecidableEq, Repr

/-- From `DashboardPage.tsx` lines 203-208: the add-product form state. -/
structure ProductForm where
  product_name : String
  product_type : String
  selling_price : ℚ
  description : String
deriving DecidableEq, Repr

/-- From `DashboardPage.tsx` lines 210-214: the add-recipe-entry form state. -/
structure RecipeForm where
  ingredient_id : Nat
  quantity_needed : ℚ
  notes : String
deriving DecidableEq, Repr

/-- From `DashboardPage.tsx` lines 157-163: a `Product` record. -/
structure Product where
  id : Nat
  product_name : String
  product_type : String
  selling_price : ℚ
  description : String
deriving DecidableEq, Repr

/-- The `IngredientsPage` component state touched by the add handlers. -/
structure IngredientsPageState where
  newIngredient : IngredientForm
  newProduct : ProductForm
  newRecipe : RecipeForm
  isAddingIngredient : Bool
  isAddingProduct : Bool
  isAddingRecipe : Bool
  selectedProduct : Option Product
deriving DecidableEq, Repr

/-- Drop leading whitespace characters from a character list. -/
def dropLeadingWhitespace : List Char → List Char
  | [] => []
  | c :: rest =>
      if c.isWhitespace then dropLeadingWhitespace rest else c :: rest

/-- Model of JavaScript `String.prototype.trim()`: strip whitespace from
both ends (structural recursion on the character list so that concrete
instances evaluate). -/
def jsTrim (s : String) : String :=
  String.mk
    ((dropLeadingWhitespace ((dropLeadingWhitespace s.data).reverse)).reverse)

/-- From `DashboardPage.tsx` lines 264-272: the blank ingredient form the
handler resets to after a successful add. -/
def blankIngredientForm : IngredientForm :=
  { name := "", unit := "kg", stock_quantity := 0, reorder_level := 0,
    unit_cost := 0, supplier := "", notes := "" }

/-- From `DashboardPage.tsx` lines 324-329: the blank product form the handler
resets to after a successful add. -/
def blankProductForm : ProductForm :=
  { product_name := "", product_type := "Coffee", selling_price := 0,
    description := "" }

/-- From `DashboardPage.tsx` lines 248-278: `handleAddIngredient`. An empty
trimmed name alerts and returns before any request; otherwise the create
request is awaited, and its outcome decides between the success path
(alert, close dialog, reset form, refetch) and the failure alert. -/
def handleAddIngredient (st : IngredientsPageState)
    (api : Except String Unit) : IngredientsPageState × List Effect :=
  if jsTrim st.newIngredient.name = "" then
    (st, [Effect.alert "Please enter an ingredient name"])
  else
    match api with
    | .ok _ =>
        ({ st with isAddingIngredient := false,
                   newIngredient := blankIngredientForm },
         [Effect.httpRequest "POST /ingredients",
          Effect.alert "Ingredient added successfully!",
          Effect.httpRequest "GET /ingredients"])
    | .error e =>
        (st, [Effect.httpRequest "POST /ingredients",
              Effect.logError ("Error adding ingredient: " ++ e),
              Effect.alert ("Failed to add ingredient: " ++ e)])

/-- From `DashboardPage.tsx` lines 308-335: `handleAddProduct`, same shape as
`handleAddIngredient` with the product form and endpoints. -/
def handleAddProduct (st : IngredientsPageState)
    (api : Except String Unit) : IngredientsPageState × List Effect :=
  if jsTrim st.newProduct.product_name = "" then
    (st, [Effect.alert "Please enter a product name"])
  else
    match api with
    | .ok _ =>
        ({ st with isAddingProduct := false,
                   newProduct := blankProductForm },
         [Effect.httpRequest "POST /products",
          Effect.alert "Product added successfully!",
          Effect.httpRequest "GET /products"])
    | .error e =>
        (st, [Effect.httpRequest "POST /products",
              Effect.logError ("Error adding product: " ++ e),
              Effect.alert ("Failed to add product: " ++ e)])

/-- From `DashboardPage.tsx` lines 337-371: `handleAddRecipeIngredient` guards
on a selected product, a chosen ingredient (`ingredient_id !== 0`) and a
positive `quantity_needed` before issuing the create request. -/
def handleAddRecipeIngredient (st : IngredientsPageState)
    (api : Except String Unit) : IngredientsPageState × List Effect :=
  match st.selectedProduct with
  | none => (st, [Effect.alert "Please select a product first"])
  | some product =>
      if st.newRecipe.ingredient_id = 0 then
        (st, [Effect.alert "Please select an ingredient"])
      else if st.newRecipe.quantity_needed ≤ 0 then
        (st, [Effect.alert "Please enter a quantity greater than 0"])
      else
        match api with
        | .ok _ =>
            ({ st with isAddingRecipe := false,
                       newRecipe := { ingredient_id := 0,
                                      quantity_needed := 0, notes := "" } },
             [Effect.httpRequest
                ("POST /products/" ++ toString product.id ++ "/ingredients"),
              Effect.alert "Ingredient added to recipe successfully!",
              Effect.httpRequest
                ("GET /products/" ++ toString product.id ++ "/ingredients")])
        | .error e =>
            (st, [Effect.httpRequest
                    ("POST /products/" ++ toString product.id ++ "/ingredients"),
                  Effect.logError ("Error adding recipe ingredient: " ++ e),
                  Effect.alert ("Failed to add to recipe: " ++ e)])

/-- Whether an effect is an outgoing HTTP request. -/
def Effect.isRequest : Effect → Bool
  | .httpRequest _ => true
  | _ => false

/-- The HTTP requests among the effects of a handler. -/
def requestsOf (effects : List Effect) : List Effect :=
  effects.filter Effect.isRequest

/- ### Backend adapter endpoints (modelled from the spec) -/

/-- What an outbound adapter call to an upstream API produced: an
exception, or a response with a success flag and (on success) a payload. -/
inductive UpstreamOutcome (α : Type) where
  | exn (msg : String)
  | response (ok : Bool) (data : α)
deriving DecidableEq, Repr

/-- A backend HTTP reply: status code and JSON body. -/
structure HttpReply (α : Type) where
  status : Nat
  body : α
deriving DecidableEq, Repr

/-- Modelled from the spec: the holiday/weather adapter code is not under
`src/`. Spec: "On any non-success response or exception, the adapter
returns a hard-coded fallback value ... rather than propagating the
error". -/
def adapterFetch (α : Type) (fallback : α) (upstream : UpstreamOutcome α) : α :=
  match upstream with
  | .exn _ => fallback
  | .response ok data => if ok then data else fallback

/-- Modelled from the spec: the `/holidays` and `/weather-forecast` route
handlers are not under `src/`. Spec: they are a "raw adapter passthrough"
and "return their canned fallback shape when the upstream API is
unreachable, never a 5xx". -/
def adapterEndpoint (α : Type) (fallback : α)
    (upstream : UpstreamOutcome α) : HttpReply α :=
  { status := 200, body := adapterFetch α fallback upstream }

/- ### AIInsightsPage.tsx -/

/-- The shape of one insight in a `/generate-insights` response body
(`api.ts` lines 29-36 document the same shape for `/ai-insights`). -/
structure BackendInsight where
  type : String
  text : String
  color : String
deriving DecidableEq, Repr

/-- One insight as held in the `liveInsights` UI state
(`AIInsightsPage.tsx` lines 33-45 fields). -/
structure UIInsight where
  id : Nat
  type : String
  title : String
  description : String
  impact : String
  recommendation : String
  confidence : Nat
deriving DecidableEq, Repr

/-- From `AIInsightsPage.tsx` lines 236-249: `getTitleFromType`. -/
def getTitleFromType (type : String) : String :=
  if type = "trending_up" then "Sales Pattern Detected"
  else if type = "users" then "Staffing Optimization"
  else if type = "clock" then "Peak Hour Prediction"
  else if type = "alert" then "Inventory Alert"
  else "Business Insight"

/-- From `AIInsightsPage.tsx` lines 251-256: `getImpactFromColor`. -/
def getImpactFromColor (color : String) : String :=
  if color = "#22c55e" then "low"
  else if color = "#f59e0b" then "medium"
  else if color = "#ef4444" then "high"
  else "medium"

/-- From `AIInsightsPage.tsx` lines 212-221: the UI insight built for the
backend insight at position `idx`. `Date.now()` is the parameter `now`;
`90 + Math.floor(Math.random() * 10)` is `90 + rand10` for the draw
`rand10 : Fin 10` consumed at this position. -/
def mkUIInsight (now idx : Nat) (rand10 : Fin 10)
    (insight : BackendInsight) : UIInsight :=
  { id := now + idx,
    type := if insight.type = "alert" then "inventory" else insight.type,
    title := getTitleFromType insight.type,
    description := insight.text,
    impact := getImpactFromColor insight.color,
    recommendation := insight.text,
    confidence := 90 + rand10.val }

/-- From `AIInsightsPage.tsx` lines 203-223: `response.insights.map` with its
running index, the random draws supplied as a stream `rands`. -/
def mapGeneratedInsights (now : Nat) (rands : Nat → Fin 10) :
    Nat → List BackendInsight → List UIInsight
  | _, [] => []
  | idx, insight :: rest =>
      mkUIInsight now idx (rands idx) insight ::
        mapGeneratedInsights now rands (idx + 1) rest

/-- From `AIInsightsPage.tsx` lines 194-234: `handleGenerateInsights` issues the
generate request; on success it maps the returned insights into UI
insights (the new `liveInsights` value, returned as `some`), on failure it
logs and alerts, leaving `liveInsights` unchanged (`none`). -/
def handleGenerateInsights (now : Nat) (rands : Nat → Fin 10)
    (resp : Except String (List BackendInsight)) :
    Option (List UIInsight) × List Effect :=
  match resp with
  | .ok insights =>
      (some (mapGeneratedInsights now rands 0 insights),
       [Effect.httpRequest "POST /generate-insights"])
  | .error e =>
      (none,
       [Effect.httpRequest "POST /generate-insights",
        Effect.logError ("Failed to generate insights: " ++ e),
        Effect.alert "Failed to generate new insights. Please try again."])

/-- One forecast chart entry (`AIInsightsPage.tsx` lines 109-111):
`predicted` is `Math.round`ed, `actual` is a number or `null`. -/
structure ForecastDay where
  day : String
  predicted : ℤ
  actual : Option ℚ
deriving DecidableEq, Repr

/-- From `AIInsightsPage.tsx` line 174: the actual-sales CSV field is
`day.actual || "N/A"` — JavaScript falsy coercion, so `null` and `0` both
print as `N/A`. -/
def actualSalesField (actual : Option ℚ) : String :=
  match actual with
  | none => "N/A"
  | some v => if v = 0 then "N/A" else toString v

/-- The one CSV row contributed by a forecast entry
(`AIInsightsPage.tsx` line 174). -/
def forecastCsvRow (d : ForecastDay) : String :=
  d.day ++ "," ++ toString d.predicted ++ "," ++ actualSalesField d.actual
    ++ "\n"

/-- From `AIInsightsPage.tsx` lines 170-175: sales forecast
section of `handleExportReport` — a header then one appended row per forecast entry
(`reportData.forecast.forEach`). -/
def forecastCsvSection (forecast : List ForecastDay) : String :=
  forecast.foldl (fun acc d => acc ++ forecastCsvRow d)
    "\nSALES FORECAST\nDay,Predicted Sales,Actual Sales\n"

/-- The rows of the forecast section written out one after the other, one
per entry in order: the shape the export is compared against. -/
def forecastCsvRows : List ForecastDay → String
  | [] => ""
  | d :: rest => forecastCsvRow d ++ forecastCsvRows rest

/-- The `liveInsights` value produced by a `handleGenerateInsights`
invocation (the prior value, i.e. `[]` here, when the call failed). -/
def generatedInsights (now : Nat) (rands : Nat → Fin 10)
    (resp : Except String (List BackendInsight)) : List UIInsight :=
  (handleGenerateInsights now rands resp).1.getD []

/-- Default `UIInsight` used with `List.getD`. -/
def defaultUIInsight : UIInsight :=
  { id := 0, type := "", title := "", description := "", impact := "",
    recommendation := "", confidence := 0 }

/-- Default `BackendInsight` used with `List.getD`. -/
def defaultBackendInsight : BackendInsight :=
  { type := "", text := "", color := "" }

/-- A concrete product used to evaluate the handlers on sample states. -/
def sampleSelectedProduct : Product :=
  { id := 1, product_name := "Latte", product_type := "Coffee",
    selling_price := 5, description := "" }

/-- A concrete `IngredientsPage` state: a product is selected, ingredient
3 is chosen in the recipe form, but the quantity is still 0. -/
def sampleRecipeState : IngredientsPageState :=
  { newIngredient := blankIngredientForm,
    newProduct := blankProductForm,
    newRecipe := { ingredient_id := 3, quantity_needed := 0, notes := "" },
    isAddingIngredient := false,
    isAddingProduct := false,
    isAddingRecipe := true,
    selectedProduct := some sampleSelectedProduct }

/-!
## Theorems

Shared lemmas first, then one theorem (with counterexample and witness
where required) per specification claim.
-/

theorem Storage.getItem_removeItem_self (s : Storage) (key : String) :
    (s.removeItem key).getItem key = none := by
  induction s with
  | nil => rfl
  | cons kv rest ih =>
      obtain ⟨k, v⟩ := kv
      by_cases h : k = key
      · simp [Storage.removeItem, h, ih]
      · simp [Storage.removeItem, Storage.getItem, h, ih]

theorem Storage.getItem_removeItem_other (s : Storage) (key other : String)
    (h : other ≠ key) : (s.removeItem key).getItem other = s.getItem other := by
  induction s with
  | nil => rfl
  | cons kv rest ih =>
      obtain ⟨k, v⟩ := kv
      by_cases hk : k = key
      · subst hk
        simp [Storage.removeItem, Storage.getItem, Ne.symm h, ih]
      · by_cases ho : k = other
        · subst ho
          simp [Storage.removeItem, Storage.getItem, hk, h, ih]
        · simp [Storage.removeItem, Storage.getItem, hk, ho, ih]

theorem renderPage_cases (page : String) :
    renderPage page = .dashboard ∨ renderPage page = .sales ∨
    renderPage page = .inventory ∨ renderPage page = .ingredients ∨
    renderPage page = .staff ∨ renderPage page = .aiInsights ∨
    renderPage page = .settings := by
  unfold renderPage
  split_ifs <;> simp

theorem mapGeneratedInsights_length (now : Nat) (rands : Nat → Fin 10)
    (s : Nat) (l : List BackendInsight) :
    (mapGeneratedInsights now rands s l).length = l.length := by
  induction l generalizing s with
  | nil => rfl
  | cons insight rest ih => simp [mapGeneratedInsights, ih]

theorem mapGeneratedInsights_getD (now : Nat) (rands : Nat → Fin 10)
    (s : Nat) (l : List BackendInsight) (i : Nat) (h : i < l.length) :
    (mapGeneratedInsights now rands s l).getD i defaultUIInsight =
      mkUIInsight now (s + i) (rands (s + i))
        (l.getD i defaultBackendInsight) := by
  induction l generalizing s i with
  | nil => simp at h
  | cons insight rest ih =>
      match i with
      | 0 => simp [mapGeneratedInsights]
      | i + 1 =>
          have h2 : i < rest.length := by simpa using h
          have := ih (s + 1) i h2
          simpa [mapGeneratedInsights, Nat.add_assoc, Nat.add_comm 1 i]
            using this

theorem forecastCsv_foldl_rows (l : List ForecastDay) (acc : String) :
    l.foldl (fun a d => a ++ forecastCsvRow d) acc =
      acc ++ forecastCsvRows l := by
  induction l generalizing acc with
  | nil => simp [forecastCsvRows]
  | cons d rest ih => simp [forecastCsvRows, ih, String.append_assoc]

/-- C1 counterexample: the claim says the Low Stock indicator appears iff
`stock_quantity < reorder_level` in both views, but the per-product recipe
view shows its badge from `stock_quantity < quantity_needed * 10`. For a
recipe row with stock 50 and quantity-needed 6 whose ingredient has
reorder level 10, the badge appears although the stock (50) is not below
the reorder level (10). -/
theorem c1_low_stock_counterexample :
    recipeLowStockBadge
      { id := 1, ingredient_id := 2, ingredient_name := "Coffee Beans",
        quantity_needed := 6, unit := "kg", stock_quantity := 50,
        units_available := 8, notes := "" } = true ∧
    backendIsLowStock 50 10 = false := by
  constructor
  · have h : (50 : ℚ) < 6 * 10 := by norm_num
    simpa [recipeLowStockBadge] using h
  · have h : ¬ (50 : ℚ) < 10 := by norm_num
    simpa [backendIsLowStock] using h

/-- C1 (amended): the ingredients-table badge shows exactly the
backend-delivered `is_low_stock` flag, which (modelled from the spec) is
`stock_quantity < reorder_level`; the recipe-view badge instead shows
exactly when `stock_quantity < quantity_needed * 10`. -/
theorem c1_low_stock_amended :
    (∀ i : Ingredient,
        i.is_low_stock = backendIsLowStock i.stock_quantity i.reorder_level →
        (ingredientsTableLowStockBadge i = true ↔
          i.stock_quantity < i.reorder_level)) ∧
    (∀ r : ProductIngredient,
        recipeLowStockBadge r = true ↔
          r.stock_quantity < r.quantity_needed * 10) := by
  constructor
  · intro i h
    rw [ingredientsTableLowStockBadge, h]
    simp [backendIsLowStock]
  · intro r
    simp [recipeLowStockBadge]

/-- C1 witness: the amended theorem applied to a concrete low ingredient
(stock 5, reorder level 10, backend flag set). -/
theorem c1_low_stock_amended_witness :
    ingredientsTableLowStockBadge
      { id := 1, name := "Sugar", unit := "kg", stock_quantity := 5,
        reorder_level := 10, unit_cost := 1, supplier := "", notes := "",
        is_low_stock := true } = true ↔ (5 : ℚ) < 10 :=
  c1_low_stock_amended.1
    { id := 1, name := "Sugar", unit := "kg", stock_quantity := 5,
      reorder_level := 10, unit_cost := 1, supplier := "", notes := "",
      is_low_stock := true }
    (by norm_num [backendIsLowStock])

/-- C2 counterexample: `App.tsx` initializes `isAuthenticated` from the
stored `"isAuthenticated"` flag, not from token presence: with an
`authToken` in storage but no `isAuthenticated` key, the token variant
treats the user as authenticated while the committed `App.tsx` does not,
refuting the claim that token presence is the signal the frontend
consults. -/
theorem c2_auth_counterexample :
    isAuthenticatedInitToken [("authToken", "abc123")] = true ∧
    isAuthenticatedInitApp [("authToken", "abc123")] = false := by
  constructor
  · decide
  · decide

/-- C2 (amended): at startup the committed `App.tsx` treats the user as
authenticated iff the stored `isAuthenticated` flag equals the string
`"true"`, while the token variant (`part_001`) treats the user as
authenticated iff a non-empty `authToken` is present (`!!token` is
JavaScript string truthiness, so the empty-string token is falsy); in
either variant the resulting boolean is the only authentication signal
the router consults — login/signup is rendered exactly when it is false,
regardless of `activePage`. -/
theorem c2_auth_amended :
    (∀ store : Storage,
        isAuthenticatedInitApp store = true ↔
          store.getItem "isAuthenticated" = some "true") ∧
    (∀ store : Storage,
        isAuthenticatedInitToken store = true ↔
          ∃ token, store.getItem "authToken" = some token ∧ token ≠ "") ∧
    (∀ (isAuthenticated : Bool) (view : AuthView) (page : String),
        (appRender isAuthenticated view page = .login ∨
          appRender isAuthenticated view page = .signup) ↔
          isAuthenticated = false) := by
  refine ⟨?_, ?_, ?_⟩
  · intro store
    unfold isAuthenticatedInitApp
    cases h : store.getItem "isAuthenticated" with
    | none => simp
    | some saved => simp
  · intro store
    unfold isAuthenticatedInitToken
    cases h : store.getItem "authToken" with
    | none => simp
    | some token => simp
  · intro isAuthenticated view page
    cases isAuthenticated with
    | false => cases view <;> simp [appRender]
    | true =>
        simp only [appRender, Bool.not_true, Bool.false_eq_true, if_false]
        rcases renderPage_cases page with h | h | h | h | h | h | h <;>
          simp [h]

/-- C2 witness: the amended theorem applied to a concrete store holding
`isAuthenticated = "true"`. -/
theorem c2_auth_amended_witness :
    isAuthenticatedInitApp [("isAuthenticated", "true")] = true :=
  (c2_auth_amended.1 [("isAuthenticated", "true")]).mpr (by decide)

/-- C3 counterexample: an `apiRequest` fetch that returns a success status
whose body is not valid JSON still rejects (the `await response.json()`
rejection propagates), refuting the claim that an invocation rejects only
when the fetch fails or the status is non-success. -/
theorem c3_api_request_counterexample :
    apiRequest Nat [FetchOutcome.response true 200 "OK" none] =
      some (Except.error "SyntaxError: unexpected token in JSON", []) := rfl

/-- C3 (amended): each `apiRequest` invocation consumes exactly one fetch
outcome from the queue and never retries; it rejects iff the fetch
rejected, the status was non-success, or a success-status body failed to
parse as JSON; on a success status with a parsed body it returns that
body unmodified. -/
theorem c3_api_request_amended (α : Type) (o : FetchOutcome α)
    (rest : List (FetchOutcome α)) :
    apiRequest α (o :: rest) = some (apiRequestResult α o, rest) ∧
    isErrorResult α (apiRequestResult α o) = amendedRejectCondition α o ∧
    (∀ (status : Nat) (statusText : String) (parsed : α),
        o = .response true status statusText (some parsed) →
        apiRequestResult α o = .ok parsed) := by
  refine ⟨rfl, ?_, ?_⟩
  · cases o with
    | netError msg => rfl
    | response ok status statusText body =>
        cases ok <;> cases body <;>
          simp [apiRequestResult, isErrorResult, amendedRejectCondition]
  · intro status statusText parsed h
    subst h
    rfl

/-- C3 witness: the amended theorem applied to a concrete queue holding
one success response with a parsed body. -/
theorem c3_api_request_amended_witness :
    apiRequest Nat [FetchOutcome.response true 200 "OK" (some 7)] =
      some (Except.ok 7, []) := by
  have h := c3_api_request_amended Nat
    (FetchOutcome.response true 200 "OK" (some 7)) []
  rw [h.1, h.2.2 200 "OK" 7 rfl]

/-- C4: when the required name field is empty or whitespace-only (its
JavaScript `trim()` is empty), `handleAddIngredient` and
`handleAddProduct` each raise exactly one blocking alert and return with
the component state unchanged and no HTTP request issued, whatever the
network would have answered. -/
theorem c4_empty_name_blocks (st : IngredientsPageState)
    (api : Except String Unit) :
    (jsTrim st.newIngredient.name = "" →
      handleAddIngredient st api =
        (st, [Effect.alert "Please enter an ingredient name"]) ∧
      requestsOf (handleAddIngredient st api).2 = []) ∧
    (jsTrim st.newProduct.product_name = "" →
      handleAddProduct st api =
        (st, [Effect.alert "Please enter a product name"]) ∧
      requestsOf (handleAddProduct st api).2 = []) := by
  constructor
  · intro h
    constructor
    · simp [handleAddIngredient, h]
    · simp [handleAddIngredient, h, requestsOf, Effect.isRequest]
  · intro h
    constructor
    · simp [handleAddProduct, h]
    · simp [handleAddProduct, h, requestsOf, Effect.isRequest]

/-- C4 witness: the theorem applied to a concrete state whose ingredient
name is whitespace-only, with a network that would have succeeded. -/
theorem c4_empty_name_blocks_witness :
    handleAddIngredient
      { newIngredient := { blankIngredientForm with name := "   " },
        newProduct := blankProductForm,
        newRecipe := { ingredient_id := 0, quantity_needed := 0, notes := "" },
        isAddingIngredient := true, isAddingProduct := false,
        isAddingRecipe := false, selectedProduct := none }
      (Except.ok ()) =
      ({ newIngredient := { blankIngredientForm with name := "   " },
         newProduct := blankProductForm,
         newRecipe := { ingredient_id := 0, quantity_needed := 0, notes := "" },
         isAddingIngredient := true, isAddingProduct := false,
         isAddingRecipe := false, selectedProduct := none },
       [Effect.alert "Please enter an ingredient name"]) :=
  ((c4_empty_name_blocks
      { newIngredient := { blankIngredientForm with name := "   " },
        newProduct := blankProductForm,
        newRecipe := { ingredient_id := 0, quantity_needed := 0, notes := "" },
        isAddingIngredient := true, isAddingProduct := false,
        isAddingRecipe := false, selectedProduct := none }
      (Except.ok ())).1 (by decide)).1

/-- C5: `handleAddRecipeIngredient` issues its create request exactly when
a product is selected, an ingredient is chosen (`ingredient_id ≠ 0`) and
`quantity_needed > 0`; each failed guard instead raises its alert and
issues no request, leaving the state unchanged — so every recipe entry
created through the UI has a positive quantity. -/
theorem c5_recipe_guard (st : IngredientsPageState)
    (api : Except String Unit) :
    ((requestsOf (handleAddRecipeIngredient st api).2 ≠ []) ↔
      (st.selectedProduct.isSome = true ∧ st.newRecipe.ingredient_id ≠ 0 ∧
        0 < st.newRecipe.quantity_needed)) ∧
    (st.selectedProduct = none →
      handleAddRecipeIngredient st api =
        (st, [Effect.alert "Please select a product first"])) ∧
    (∀ product, st.selectedProduct = some product →
      st.newRecipe.ingredient_id = 0 →
      handleAddRecipeIngredient st api =
        (st, [Effect.alert "Please select an ingredient"])) ∧
    (∀ product, st.selectedProduct = some product →
      st.newRecipe.ingredient_id ≠ 0 →
      st.newRecipe.quantity_needed ≤ 0 →
      handleAddRecipeIngredient st api =
        (st, [Effect.alert "Please enter a quantity greater than 0"])) := by
  refine ⟨?_, ?_, ?_, ?_⟩
  · cases hsel : st.selectedProduct with
    | none =>
        simp [handleAddRecipeIngredient, hsel, requestsOf, Effect.isRequest]
    | some product =>
        by_cases hid : st.newRecipe.ingredient_id = 0
        · simp [handleAddRecipeIngredient, hsel, hid, requestsOf,
            Effect.isRequest]
        · by_cases hq : st.newRecipe.quantity_needed ≤ 0
          · simp [handleAddRecipeIngredient, hsel, hid, hq, requestsOf,
              Effect.isRequest]
          · cases api with
            | ok u =>
                simp [handleAddRecipeIngredient, hsel, hid, hq, requestsOf,
                  Effect.isRequest]
                exact lt_of_not_le hq
            | error e =>
                simp [handleAddRecipeIngredient, hsel, hid, hq, requestsOf,
                  Effect.isRequest]
                exact lt_of_not_le hq
  · intro hsel
    simp [handleAddRecipeIngredient, hsel]
  · intro product hsel hid
    simp [handleAddRecipeIngredient, hsel, hid]
  · intro product hsel hid hq
    simp [handleAddRecipeIngredient, hsel, hid, hq]

/-- C5 witness: the theorem applied to a concrete state with a product
selected, ingredient 3 chosen and a zero quantity: the handler alerts and
the state is returned unchanged. -/
theorem c5_recipe_guard_witness :
    handleAddRecipeIngredient sampleRecipeState (Except.ok ()) =
      (sampleRecipeState,
       [Effect.alert "Please enter a quantity greater than 0"]) :=
  (c5_recipe_guard sampleRecipeState (Except.ok ())).2.2.2
    sampleSelectedProduct rfl (by decide) (by norm_num [sampleRecipeState])

/-- C6: the page router is total — for an authenticated user it renders
`renderPage activePage`, which is always one of the seven page views, and
any `activePage` outside the seven named values renders the dashboard; an
unauthenticated user is shown the login or signup view according to
`authView`, regardless of `activePage`. -/
theorem c6_router_total (isAuthenticated : Bool) (view : AuthView)
    (page : String) :
    (isAuthenticated = true →
      appRender isAuthenticated view page = renderPage page ∧
      (appRender isAuthenticated view page = .dashboard ∨
        appRender isAuthenticated view page = .sales ∨
        appRender isAuthenticated view page = .inventory ∨
        appRender isAuthenticated view page = .ingredients ∨
        appRender isAuthenticated view page = .staff ∨
        appRender isAuthenticated view page = .aiInsights ∨
        appRender isAuthenticated view page = .settings) ∧
      (page ≠ "dashboard" → page ≠ "sales" → page ≠ "inventory" →
        page ≠ "ingredients" → page ≠ "staff" → page ≠ "ai-insights" →
        page ≠ "settings" →
        appRender isAuthenticated view page = .dashboard)) ∧
    (isAuthenticated = false →
      (view = .login → appRender isAuthenticated view page = .login) ∧
      (view = .signup → appRender isAuthenticated view page = .signup)) := by
  constructor
  · intro hauth
    subst hauth
    refine ⟨rfl, ?_, ?_⟩
    · have h := renderPage_cases page
      simpa [appRender] using h
    · intro h1 h2 h3 h4 h5 h6 h7
      simp [appRender, renderPage, h1, h2, h3, h4, h5, h6, h7]
  · intro hauth
    subst hauth
    cases view <;> simp [appRender]

/-- C6 witness: the theorem applied to the unknown page value
`"analytics"` for an authenticated user: the dashboard is rendered. -/
theorem c6_router_total_witness :
    appRender true AuthView.login "analytics" = PageView.dashboard :=
  ((c6_router_total true AuthView.login "analytics").1 rfl).2.2
    (by decide) (by decide) (by decide) (by decide) (by decide) (by decide)
    (by decide)

/-- C7: for every fallback payload and every upstream outcome, the
`/holidays` and `/weather-forecast` endpoints (modelled from the spec)
answer with status 200; when the upstream call raised or returned a
non-success response, the body is exactly the hard-coded fallback, so the
upstream error never propagates and no 5xx is returned. -/
theorem c7_adapter_fallback (α : Type) (fallback : α)
    (upstream : UpstreamOutcome α) :
    (adapterEndpoint α fallback upstream).status = 200 ∧
    ((∃ msg, upstream = .exn msg) ∨
        (∃ data, upstream = .response false data) →
      (adapterEndpoint α fallback upstream).body = fallback) ∧
    (∀ data, upstream = .response true data →
      (adapterEndpoint α fallback upstream).body = data) := by
  refine ⟨rfl, ?_, ?_⟩
  · rintro (⟨msg, h⟩ | ⟨data, h⟩) <;>
      subst h <;> rfl
  · intro data h
    subst h
    rfl

/-- C7 witness: the theorem applied to an unreachable upstream (the fetch
raised) with the canned payload `["New Year"]`: the endpoint answers 200
with the canned payload. -/
theorem c7_adapter_fallback_witness :
    (adapterEndpoint (List String) ["New Year"]
        (UpstreamOutcome.exn "ECONNREFUSED")).status = 200 ∧
    (adapterEndpoint (List String) ["New Year"]
        (UpstreamOutcome.exn "ECONNREFUSED")).body = ["New Year"] :=
  ⟨(c7_adapter_fallback (List String) ["New Year"]
      (UpstreamOutcome.exn "ECONNREFUSED")).1,
   (c7_adapter_fallback (List String) ["New Year"]
      (UpstreamOutcome.exn "ECONNREFUSED")).2.1
     (Or.inl ⟨"ECONNREFUSED", rfl⟩)⟩

/-- C8: for every insight produced by `handleGenerateInsights`, the
displayed confidence is `90 + Math.floor(Math.random() * 10)` — an integer
between 90 and 99 determined by the random draw alone, not by the backend
response — and the displayed impact is `getImpactFromColor` of the
color of the insight, whose value is `low` for `#22c55e`, `medium` for
`#f59e0b`, `high` for `#ef4444`, and `medium` for every other color. -/
theorem c8_generated_insights (now : Nat) (rands : Nat → Fin 10)
    (resp : List BackendInsight) (i : Nat) (h : i < resp.length) :
    (generatedInsights now rands (Except.ok resp)).length = resp.length ∧
    ((generatedInsights now rands (Except.ok resp)).getD i
        defaultUIInsight).confidence = 90 + (rands i).val ∧
    90 ≤ ((generatedInsights now rands (Except.ok resp)).getD i
        defaultUIInsight).confidence ∧
    ((generatedInsights now rands (Except.ok resp)).getD i
        defaultUIInsight).confidence ≤ 99 ∧
    ((generatedInsights now rands (Except.ok resp)).getD i
        defaultUIInsight).impact =
      getImpactFromColor ((resp.getD i defaultBackendInsight).color) ∧
    getImpactFromColor "#22c55e" = "low" ∧
    getImpactFromColor "#f59e0b" = "medium" ∧
    getImpactFromColor "#ef4444" = "high" ∧
    (∀ c : String, c ≠ "#22c55e" → c ≠ "#f59e0b" → c ≠ "#ef4444" →
      getImpactFromColor c = "medium") := by
  have hres : generatedInsights now rands (Except.ok resp) =
      mapGeneratedInsights now rands 0 resp := rfl
  have hget := mapGeneratedInsights_getD now rands 0 resp i h
  refine ⟨?_, ?_, ?_, ?_, ?_, rfl, rfl, rfl, ?_⟩
  · rw [hres, mapGeneratedInsights_length]
  · rw [hres, hget]
    simp [mkUIInsight]
  · rw [hres, hget]
    simp [mkUIInsight]
  · rw [hres, hget]
    simp [mkUIInsight]
    omega
  · rw [hres, hget]
    simp [mkUIInsight]
  · intro c h1 h2 h3
    simp [getImpactFromColor, h1, h2, h3]

/-- C8 witness: the theorem applied to a one-insight backend response with
random draw 3: the rendered confidence is 93 and the impact is the color
mapping of `#ef4444`, namely `high`. -/
theorem c8_generated_insights_witness :
    ((generatedInsights 0 (fun _ => (3 : Fin 10))
        (Except.ok [{ type := "alert", text := "restock", color := "#ef4444" }])).getD
        0 defaultUIInsight).confidence = 93 ∧
    ((generatedInsights 0 (fun _ => (3 : Fin 10))
        (Except.ok [{ type := "alert", text := "restock", color := "#ef4444" }])).getD
        0 defaultUIInsight).impact = "high" := by
  have h := c8_generated_insights 0 (fun _ => (3 : Fin 10))
    [{ type := "alert", text := "restock", color := "#ef4444" }] 0
    (by decide)
  refine ⟨?_, ?_⟩
  · have h1 := h.2.1
    simpa using h1
  · have h2 := h.2.2.2.2.1
    simpa [defaultBackendInsight, getImpactFromColor] using h2

/-- C9: `handleExportReport` writes the forecast section as its header
followed by exactly one CSV row per forecast entry, in order; the
actual-sales column of a row is the falsy coercion `day.actual || "N/A"`,
so it reads `N/A` both when the actual value of the entry is null and when it
is 0 — an actual value of 0 is never exported as a number. -/
theorem c9_export_csv (forecast : List ForecastDay) (d : ForecastDay) :
    forecastCsvSection forecast =
      "\nSALES FORECAST\nDay,Predicted Sales,Actual Sales\n" ++
        forecastCsvRows forecast ∧
    (d.actual = none → actualSalesField d.actual = "N/A") ∧
    (d.actual = some 0 → actualSalesField d.actual = "N/A") ∧
    forecastCsvRow d =
      d.day ++ "," ++ toString d.predicted ++ "," ++
        actualSalesField d.actual ++ "\n" := by
  refine ⟨?_, ?_, ?_, rfl⟩
  · exact forecastCsv_foldl_rows forecast _
  · intro h
    rw [h]
    rfl
  · intro h
    rw [h]
    simp [actualSalesField]
  
/-- C9 witness: the theorem applied to a concrete entry whose actual value
is 0: the actual-sales column reads `N/A`. -/
theorem c9_export_csv_witness :
    actualSalesField (ForecastDay.actual
      { day := "Mon", predicted := 12500, actual := some 0 }) = "N/A" :=
  (c9_export_csv []
    { day := "Mon", predicted := 12500, actual := some 0 }).2.2.1 rfl

/-- C10: `handleLogout` always clears local authentication state — for
every starting storage, component state and backend `/logout` outcome
(including a rejected fetch: the catch swallows it), the resulting storage
holds neither `authToken` nor `user`, `isAuthenticated` is false and the
auth view is reset to login. -/
theorem c10_logout_clears (store : Storage) (st : AppAuthState)
    (logoutCall : CallOutcome) :
    (handleLogout store st logoutCall).1.getItem "authToken" = none ∧
    (handleLogout store st logoutCall).1.getItem "user" = none ∧
    (handleLogout store st logoutCall).2.1 =
      { isAuthenticated := false, authView := .login } := by
  refine ⟨?_, ?_, rfl⟩
  · show ((store.removeItem "authToken").removeItem "user").getItem
      "authToken" = none
    rw [Storage.getItem_removeItem_other _ _ _ (by decide)]
    exact Storage.getItem_removeItem_self store "authToken"
  · exact Storage.getItem_removeItem_self _ "user"
